import Mathlib

/-!
Verification of the note-detail route
(`app/routes/users+/$username_+/notes.$noteId.tsx`): the `loader`
(record lookup with typed not-found failure), the `NoteRoute`
presentation component, and the `ErrorBoundary` boundary-renderer from
the lesson text in the same file.
-/

namespace NoteApp

/-- A record held by the external store.  Besides the fields the route
reads (`id`, `title`, `content`), a stored record may carry further
fields; these are modelled as an association list `extra` so that
non-exposure of other fields is expressible. -/
structure StoredNote where
  id : String
  title : String
  content : String
  extra : List (String × String)
deriving Repr, DecidableEq

/-- The store collaborator state: the sequence of note records. -/
abbrev Store := List StoredNote

/-- A thrown response: the typed failure signal, carrying a
human-readable body and an HTTP status code. -/
structure Response where
  body : String
  status : Nat
deriving Repr, DecidableEq

/-- The projection of a record that the loader returns:
`{ title: note.title, content: note.content }`. -/
structure NoteView where
  title : String
  content : String
deriving Repr, DecidableEq

/-- The loader's success payload: `json({ note: { title, content } })`. -/
structure LoaderData where
  note : NoteView
deriving Repr, DecidableEq

/-- The `where` clause of the query: the record's `id` field equals the
(possibly absent) `params.noteId`. -/
def idMatches (noteId : Option String) (n : StoredNote) : Bool :=
  match noteId with
  | some s => n.id == s
  | none => false

/-- Modelled from the spec: the store collaborator (`db` of
`app/utils/db.server.ts`, not present under `src/`) exposes a
point-read-by-identifier operation returning zero or one record and is
never mutated by the lookup.  `db.note.findFirst({ where: { id: {
equals: params.noteId } } })` returns the first record whose `id`
equals the (possibly absent) route parameter, or nothing; a record's
`id` is a string, so an absent parameter matches no record.  The store
state is threaded through unchanged by the read. -/
def db_note_findFirst (store : Store) (noteId : Option String) :
    Option StoredNote × Store :=
  (store.find? (idMatches noteId), store)

/-- Modelled from the spec: `invariantResponse` (of `app/utils/misc.ts`,
not present under `src/`) throws a `Response` with the given message
and status when its condition is falsy, and lets execution continue
when it is truthy. -/
def invariantResponse (condition : Bool) (message : String)
    (status : Nat) : Option Response :=
  if condition then none else some ⟨message, status⟩

/-- The route's `loader`: look the note up by `params.noteId`, throw
`invariantResponse(note, 'Note not found', { status: 404 })` when it is
absent, otherwise return `json({ note: { title, content } })`.  The
store state is threaded explicitly; a thrown response is the `error`
case. -/
def loader (store : Store) (noteId : Option String) :
    Except Response LoaderData × Store :=
  let res := db_note_findFirst store noteId
  match invariantResponse res.1.isSome "Note not found" 404 with
  | some err => (Except.error err, res.2)
  | none =>
    match res.1 with
    | some n => (Except.ok ⟨⟨n.title, n.content⟩⟩, res.2)
    | none => (Except.error ⟨"Note not found", 404⟩, res.2)

/-- The rendered view: a tree of elements (tag, className, children),
`Button` components (variant, asChild, children), `Link` components
(`to`, children) and text. -/
inductive Node where
  | element : String → String → List Node → Node
  | button : Option String → Bool → List Node → Node
  | link : String → List Node → Node
  | text : String → Node
deriving Repr

/-- Modelled from the spec: styling constant exported by the external
floating-toolbar component; its value is presentational only. -/
def floatingToolbarClassName : String := "floating-toolbar"

/-- The `NoteRoute` component: heading with the title, scrollable body
with the content under a whitespace-preserving class, and the floating
toolbar with the Delete button and the Edit link. -/
def NoteRoute (data : LoaderData) : Node :=
  Node.element "div" "absolute inset-0 flex flex-col px-10"
    [Node.element "h2" "mb-2 pt-12 text-h2 lg:mb-6"
      [Node.text data.note.title],
     Node.element "div" "overflow-y-auto pb-24"
      [Node.element "p" "whitespace-break-spaces text-sm md:text-lg"
        [Node.text data.note.content]],
     Node.element "div" floatingToolbarClassName
      [Node.button (some "destructive") false [Node.text "Delete"],
       Node.button none true [Node.link "edit" [Node.text "Edit"]]]]

/-- The value returned by `useRouteError` as the boundary-renderer sees
it: a thrown `Response` (for which `isRouteErrorResponse` is true,
carrying status and body) or some other error. -/
inductive RouteError where
  | response : Nat → String → RouteError
  | other : RouteError
deriving Repr, DecidableEq

/-- The `ErrorBoundary` of the lesson text: when the error is a route
error response, branch on its status (404, 401), otherwise fall through
to the generic message. -/
def ErrorBoundary (error : Option RouteError) : Node :=
  match error with
  | some (RouteError.response status _) =>
    if status == 404 then Node.element "p" "" [Node.text "Not Found"]
    else if status == 401 then
      Node.element "p" "" [Node.text "Unauthorized"]
    else Node.element "p" "" [Node.text "Something went wrong"]
  | _ => Node.element "p" "" [Node.text "Something went wrong"]

mutual

/-- Concatenated text of a node, document order. -/
def Node.textContent : Node → String
  | Node.text s => s
  | Node.element _ _ cs => Node.textContentList cs
  | Node.button _ _ cs => Node.textContentList cs
  | Node.link _ cs => Node.textContentList cs

/-- Concatenated text of a list of nodes. -/
def Node.textContentList : List Node → String
  | [] => ""
  | n :: ns => Node.textContent n ++ Node.textContentList ns

end

mutual

/-- Text contents of all elements with the given tag, document order. -/
def Node.elemTexts (tag : String) : Node → List String
  | Node.element t _ cs =>
    (if t == tag then [Node.textContentList cs] else [])
      ++ Node.elemTextsList tag cs
  | Node.button _ _ cs => Node.elemTextsList tag cs
  | Node.link _ cs => Node.elemTextsList tag cs
  | Node.text _ => []

/-- Text contents of elements with the given tag in a list of nodes. -/
def Node.elemTextsList (tag : String) : List Node → List String
  | [] => []
  | n :: ns => Node.elemTexts tag n ++ Node.elemTextsList tag ns

end

mutual

/-- Targets of all links in a node, document order. -/
def Node.links : Node → List String
  | Node.link t cs => t :: Node.linksList cs
  | Node.element _ _ cs => Node.linksList cs
  | Node.button _ _ cs => Node.linksList cs
  | Node.text _ => []

/-- Targets of all links in a list of nodes. -/
def Node.linksList : List Node → List String
  | [] => []
  | n :: ns => Node.links n ++ Node.linksList ns

end

mutual

/-- All button nodes in a node, document order. -/
def Node.buttons : Node → List Node
  | Node.button v a cs => Node.button v a cs :: Node.buttonsList cs
  | Node.element _ _ cs => Node.buttonsList cs
  | Node.link _ cs => Node.buttonsList cs
  | Node.text _ => []

/-- All button nodes in a list of nodes. -/
def Node.buttonsList : List Node → List Node
  | [] => []
  | n :: ns => Node.buttons n ++ Node.buttonsList ns

end

/-- The match predicate of the lookup holds exactly when the record's
identifier equals the (optional) route parameter. -/
theorem findPred_eq (noteId : Option String) (n : StoredNote) :
    idMatches noteId n = true ↔ some n.id = noteId := by
  cases noteId <;> simp [idMatches]

/-- The lookup is determined by the store's point read and leaves the
store unchanged (helper). -/
theorem loader_eq (store : Store) (noteId : Option String) :
    loader store noteId =
      ((match (db_note_findFirst store noteId).1 with
        | some n => Except.ok ⟨⟨n.title, n.content⟩⟩
        | none => Except.error ⟨"Note not found", 404⟩), store) := by
  simp only [loader, db_note_findFirst, invariantResponse]
  repeat' split
  all_goals simp_all

/-- The lookup leaves the store unchanged (helper). -/
theorem loader_store_eq (store : Store) (noteId : Option String) :
    (loader store noteId).2 = store := by
  rw [loader_eq]

/-- The lookup's result is determined by the store's point read
(helper). -/
theorem loader_fst_eq (store : Store) (noteId : Option String) :
    (loader store noteId).1 =
      match (db_note_findFirst store noteId).1 with
      | some n => Except.ok ⟨⟨n.title, n.content⟩⟩
      | none => Except.error ⟨"Note not found", 404⟩ := by
  rw [loader_eq]

/-- A list whose unique member satisfying `p` is `n` finds `n`
(helper). -/
theorem find?_unique (p : StoredNote → Bool) (l : List StoredNote)
    (n : StoredNote) (hmem : n ∈ l) (hp : p n = true)
    (huniq : ∀ m ∈ l, p m = true → m = n) :
    l.find? p = some n := by
  induction l with
  | nil => cases hmem
  | cons m ms ih =>
    by_cases hm : p m = true
    · rw [List.find?_cons_of_pos _ hm, huniq m (by simp) hm]
    · rw [List.find?_cons_of_neg _ hm]
      rcases List.mem_cons.mp hmem with h | h
      · exact absurd (h ▸ hp) hm
      · exact ih h fun m' hm' hp' =>
          huniq m' (List.mem_cons_of_mem _ hm') hp'

/-- Claim C1: the lookup fails exactly on identifiers absent from the
store, and every failure it raises is the typed not-found response
carrying the message "Note not found" and status code 404. -/
theorem loader_notFound_iff (store : Store) (noteId : Option String) :
    ((loader store noteId).1 = Except.error ⟨"Note not found", 404⟩ ↔
        ∀ n ∈ store, some n.id ≠ noteId)
    ∧ ∀ e, (loader store noteId).1 = Except.error e →
        e = ⟨"Note not found", 404⟩ := by
  rw [loader_fst_eq]
  simp only [db_note_findFirst]
  rcases h : store.find? (idMatches noteId) with _ | n
  · refine ⟨⟨fun _ n hn hid => ?_, fun _ => rfl⟩,
      fun e he => by simp at he; exact he.symm⟩
    have := List.find?_eq_none.mp h n hn
    exact this ((findPred_eq noteId n).mpr hid)
  · have hn : n ∈ store := List.mem_of_find?_eq_some h
    have hp : some n.id = noteId :=
      (findPred_eq noteId n).mp (List.find?_some h)
    exact ⟨⟨fun hc => by simp at hc, fun hall => absurd hp (hall n hn)⟩,
      fun e he => by simp at he⟩

/-- Claim C1 witness: on a concrete store not containing the looked-up
identifier, the loader raises the not-found response. -/
theorem loader_notFound_iff_witness :
    (loader [⟨"n1", "Basic Koala Facts", "Koalas are the best", []⟩]
        (some "missing")).1 = Except.error ⟨"Note not found", 404⟩ :=
  (loader_notFound_iff
      [⟨"n1", "Basic Koala Facts", "Koalas are the best", []⟩]
      (some "missing")).1.mpr (by decide)

/-- Claim C2: for an identifier present in the store (with the spec's
uniqueness invariant), the loader succeeds and returns exactly the
stored record's title and content. -/
theorem loader_found (store : Store) (i : String) (n : StoredNote)
    (hmem : n ∈ store) (hid : n.id = i)
    (huniq : ∀ m ∈ store, m.id = i → m = n) :
    (loader store (some i)).1 = Except.ok ⟨⟨n.title, n.content⟩⟩ := by
  rw [loader_fst_eq]
  have hfind : (db_note_findFirst store (some i)).1 = some n := by
    simp only [db_note_findFirst]
    exact find?_unique _ store n hmem (by simp [idMatches, hid])
      (fun m hm hp => huniq m hm (by simpa [idMatches] using hp))
  rw [hfind]

/-- Claim C2 witness: looking up a concrete stored identifier returns
that record's title and content verbatim. -/
theorem loader_found_witness :
    (loader [⟨"n1", "Basic Koala Facts", " koalas\n  sleep a lot ", []⟩]
        (some "n1")).1 =
      Except.ok ⟨⟨"Basic Koala Facts", " koalas\n  sleep a lot "⟩⟩ :=
  loader_found _ "n1"
    ⟨"n1", "Basic Koala Facts", " koalas\n  sleep a lot ", []⟩
    (by decide) rfl (by decide)

/-- Claim C3: the loader exposes only title and content: two stores
whose matching records agree on id, title and content (whatever their
other stored fields) produce identical loader outputs. -/
theorem loader_minimal_exposure (s1 s2 : Store) (noteId : Option String)
    (n1 n2 : StoredNote)
    (h1 : (db_note_findFirst s1 noteId).1 = some n1)
    (h2 : (db_note_findFirst s2 noteId).1 = some n2)
    (hid : n1.id = n2.id) (ht : n1.title = n2.title)
    (hc : n1.content = n2.content) :
    (loader s1 noteId).1 = (loader s2 noteId).1 := by
  rw [loader_fst_eq, loader_fst_eq, h1, h2]
  simp [ht, hc]

/-- Claim C3 witness: two concrete stores whose matching record differs
only in an extra stored field produce identical loader outputs. -/
theorem loader_minimal_exposure_witness :
    (loader [⟨"n1", "T", "C", [("owner", "kody")]⟩] (some "n1")).1 =
      (loader [⟨"n1", "T", "C", [("owner", "hannah")]⟩] (some "n1")).1 :=
  loader_minimal_exposure _ _ (some "n1")
    ⟨"n1", "T", "C", [("owner", "kody")]⟩
    ⟨"n1", "T", "C", [("owner", "hannah")]⟩
    (by decide) (by decide) rfl rfl rfl

/-- Claim C4: the rendered view has one heading holding exactly the
note's title, one paragraph holding exactly the note's content
(verbatim, so the content "line1\n  line2" yields both lines with the
leading spaces of line2 intact), and the two affordances labelled
"Delete" and "Edit". -/
theorem noteRoute_view (d : LoaderData) :
    Node.elemTexts "h2" (NoteRoute d) = [d.note.title]
    ∧ Node.elemTexts "p" (NoteRoute d) = [d.note.content]
    ∧ (Node.buttons (NoteRoute d)).map Node.textContent =
        ["Delete", "Edit"]
    ∧ Node.elemTexts "p" (NoteRoute ⟨⟨"T", "line1\n  line2"⟩⟩)
        = ["line1" ++ "\n" ++ "  line2"] := by
  refine ⟨?_, ?_, ?_, ?_⟩ <;>
    simp [NoteRoute, Node.elemTexts, Node.elemTextsList,
      Node.textContent, Node.textContentList, Node.buttons,
      Node.buttonsList, floatingToolbarClassName]

/-- Claim C5: the boundary-renderer's message for a 404 response
("Not Found") differs from its message for a 401 response
("Unauthorized"), and both differ from the generic fallback it shows
for a non-response error or an absent error. -/
theorem errorBoundary_distinct (b b' : String) :
    Node.textContent (ErrorBoundary (some (RouteError.response 404 b)))
        = "Not Found"
    ∧ Node.textContent
        (ErrorBoundary (some (RouteError.response 401 b')))
        = "Unauthorized"
    ∧ Node.textContent (ErrorBoundary (some RouteError.other))
        = "Something went wrong"
    ∧ Node.textContent (ErrorBoundary none) = "Something went wrong"
    ∧ ("Not Found" : String) ≠ "Unauthorized"
    ∧ ("Not Found" : String) ≠ "Something went wrong"
    ∧ ("Unauthorized" : String) ≠ "Something went wrong" := by
  refine ⟨?_, ?_, ?_, ?_, by decide, by decide, by decide⟩ <;>
    simp [ErrorBoundary, Node.textContent, Node.textContentList]

/-- Claim C6: with no intervening writes the lookup is idempotent:
a second run (and any number of repeated runs) on the state left by
the previous runs returns the identical result. -/
theorem loader_idempotent (store : Store) (noteId : Option String)
    (k : Nat) :
    loader (loader store noteId).2 noteId = loader store noteId
    ∧ loader
        (Nat.iterate (fun s => (loader s noteId).2) k store) noteId
        = loader store noteId := by
  constructor
  · rw [loader_store_eq]
  · induction k with
    | zero => rfl
    | succ k ih =>
      rw [Function.iterate_succ_apply']
      simpa only [loader_store_eq] using ih

/-- Claim C7: the lookup has no side effect on the store: after the
call, whether it succeeded or failed, the store is exactly as before. -/
theorem loader_frame (store : Store) (noteId : Option String) :
    (loader store noteId).2 = store :=
  loader_store_eq store noteId

/-- Claim C8: presentation is a pure function of the resolved note:
two renderings of notes with equal title and content are identical. -/
theorem noteRoute_pure (d1 d2 : LoaderData)
    (ht : d1.note.title = d2.note.title)
    (hc : d1.note.content = d2.note.content) :
    NoteRoute d1 = NoteRoute d2 := by
  have hd : d1 = d2 := by
    cases d1 with
    | mk n1 => cases d2 with
      | mk n2 =>
        cases n1
        cases n2
        simp_all
  rw [hd]

/-- Claim C8 witness: two renderings of a concrete note agree. -/
theorem noteRoute_pure_witness :
    NoteRoute ⟨⟨"T", "C"⟩⟩ = NoteRoute ⟨⟨"T", "C"⟩⟩ :=
  noteRoute_pure ⟨⟨"T", "C"⟩⟩ ⟨⟨"T", "C"⟩⟩ rfl rfl

/-- Claim C9: when the route parameter is absent, the store query
matches no record and the loader raises the not-found response with
status 404, as for an absent identifier. -/
theorem loader_missing_param (store : Store) :
    (db_note_findFirst store none).1 = none
    ∧ (loader store none).1 = Except.error ⟨"Note not found", 404⟩ := by
  have h : (db_note_findFirst store none).1 = none := by
    simp only [db_note_findFirst]
    exact List.find?_eq_none.mpr fun n _ => by simp [idMatches]
  exact ⟨h, by rw [loader_fst_eq, h]⟩

/-- Claim C10: of the two affordances, only "Edit" is wired: it wraps
a link to the relative path "edit"; the "Delete" button's children are
the bare label, and it contains no link (the only link in the whole
view is the Edit one). -/
theorem noteRoute_affordance_wiring (d : LoaderData) :
    Node.buttons (NoteRoute d) =
      [Node.button (some "destructive") false [Node.text "Delete"],
       Node.button none true [Node.link "edit" [Node.text "Edit"]]]
    ∧ Node.links (NoteRoute d) = ["edit"]
    ∧ Node.links
        (Node.button (some "destructive") false [Node.text "Delete"])
        = [] := by
  refine ⟨?_, ?_, ?_⟩ <;>
    simp [NoteRoute, Node.buttons, Node.buttonsList, Node.links,
      Node.linksList, floatingToolbarClassName]

end NoteApp
